import Mathlib

/-!
Verification of the UDP command receiver/dispatcher in `pythonServer.py`.

The script binds a UDP socket and loops: receive a datagram, decode the
payload as UTF-8 (`data.decode()`), strip it, split it on whitespace; if
there are exactly two tokens it parses the second as a base-10 integer
(`int(parts[1])`) and then matches the first against the direction letters
w/s/e/q/k, dispatching the mapped directive with the parsed speed, or
reporting "Unknown command"; otherwise it reports "Invalid command format".
Decoding failures and integer-parse failures are unhandled exceptions that
terminate the process.

The embedding below models one loop iteration as a pure function from the
payload bytes to either a `Fault` (an unhandled exception, which kills the
process) or an `Outcome` (what the iteration reports), and the whole loop
as a fold over a finite list of incoming datagrams.
-/

/-- Whitespace characters recognised by Python's `str.strip()` / `str.split()`
restricted to the Latin-1 range (Python additionally treats some higher
Unicode code points as whitespace; none of the properties below depend on
those). -/
def pyIsSpace (c : Char) : Bool :=
  c = ' ' || c = '\t' || c = '\n' || c = '\r' || c = '\x0b' || c = '\x0c' ||
  c = '\x1c' || c = '\x1d' || c = '\x1e' || c = '\x1f' || c = '\x85' || c = '\xa0'

/-- Python `str.strip()`: drop leading and trailing whitespace. -/
def pyStrip (s : String) : String :=
  String.mk (((s.data.dropWhile pyIsSpace).reverse.dropWhile pyIsSpace).reverse)

/-- Worker for `pySplit`: walk the characters, accumulating the current
token in reverse; whitespace ends the current token (if nonempty). -/
def pySplitAux : List Char → List Char → List String
  | [], [] => []
  | [], cur => [String.mk cur.reverse]
  | c :: rest, cur =>
    if pyIsSpace c then
      match cur with
      | [] => pySplitAux rest []
      | _ => String.mk cur.reverse :: pySplitAux rest []
    else
      pySplitAux rest (c :: cur)

/-- Python `str.split()` with no separator: split on runs of whitespace,
discarding empty tokens. -/
def pySplit (s : String) : List String :=
  pySplitAux s.data []

/-- Digit-tail accepted by Python `int()` after the first digit: further
digits, with single underscores allowed between digits (PEP 515). -/
def pyDigits : List Char → Nat → Option Nat
  | [], acc => some acc
  | '_' :: c :: rest, acc =>
    if c.isDigit then pyDigits rest (acc * 10 + (c.toNat - 48)) else none
  | c :: rest, acc =>
    if c.isDigit then pyDigits rest (acc * 10 + (c.toNat - 48)) else none

/-- Python `int(s)` on a whitespace-free token: optional sign, then ASCII
digits with single interior underscores. (Python also accepts non-ASCII
decimal digits; the tokens in this protocol are ASCII.) Returns `none`
where Python raises `ValueError`. -/
def pyInt (s : String) : Option Int :=
  match s.data with
  | '+' :: c :: rest =>
    if c.isDigit then (pyDigits rest (c.toNat - 48)).map Int.ofNat else none
  | '-' :: c :: rest =>
    if c.isDigit then (pyDigits rest (c.toNat - 48)).map (fun n => -(Int.ofNat n)) else none
  | c :: rest =>
    if c.isDigit then (pyDigits rest (c.toNat - 48)).map Int.ofNat else none
  | [] => none

/-- `true` iff `lo ≤ b ≤ hi`. -/
def inRange (lo hi b : Nat) : Bool :=
  decide (lo ≤ b ∧ b ≤ hi)

/-- Strict UTF-8 decoding of a byte sequence, as performed by Python's
`bytes.decode()` with the default codec: rejects truncated sequences,
stray continuation bytes, overlong encodings, surrogate code points and
code points above U+10FFFF. `none` where Python raises
`UnicodeDecodeError`. -/
def pyDecode : List Nat → Option (List Char)
  | [] => some []
  | b :: rest =>
    if b ≤ 0x7F then
      match pyDecode rest with
      | some cs => some (Char.ofNat b :: cs)
      | none => none
    else if inRange 0xC2 0xDF b then
      match rest with
      | b2 :: rest2 =>
        if inRange 0x80 0xBF b2 then
          match pyDecode rest2 with
          | some cs => some (Char.ofNat ((b - 0xC0) * 0x40 + (b2 - 0x80)) :: cs)
          | none => none
        else none
      | [] => none
    else if inRange 0xE0 0xEF b then
      match rest with
      | b2 :: b3 :: rest3 =>
        if (if b = 0xE0 then inRange 0xA0 0xBF b2
            else if b = 0xED then inRange 0x80 0x9F b2
            else inRange 0x80 0xBF b2) && inRange 0x80 0xBF b3 then
          match pyDecode rest3 with
          | some cs =>
            some (Char.ofNat ((b - 0xE0) * 0x1000 + (b2 - 0x80) * 0x40 + (b3 - 0x80)) :: cs)
          | none => none
        else none
      | _ => none
    else if inRange 0xF0 0xF4 b then
      match rest with
      | b2 :: b3 :: b4 :: rest4 =>
        if (if b = 0xF0 then inRange 0x90 0xBF b2
            else if b = 0xF4 then inRange 0x80 0x8F b2
            else inRange 0x80 0xBF b2) && inRange 0x80 0xBF b3 && inRange 0x80 0xBF b4 then
          match pyDecode rest4 with
          | some cs =>
            some (Char.ofNat
              ((b - 0xF0) * 0x40000 + (b2 - 0x80) * 0x1000 + (b3 - 0x80) * 0x40 + (b4 - 0x80)) :: cs)
          | none => none
        else none
      | _ => none
    else none

/-- The five motion directives of the dispatch chain. -/
inductive Directive where
  | Forward
  | Backward
  | RotateRight
  | RotateLeft
  | Stop
deriving DecidableEq, Repr

/-- What one loop iteration reports: a dispatched directive with its speed,
or one of the two recovered rejections. -/
inductive Outcome where
  | dispatched (d : Directive) (speed : Int)
  | unknownCommand
  | invalidFormat
deriving DecidableEq, Repr

/-- An unhandled Python exception, which terminates the process. -/
inductive Fault where
  | decodeError
  | valueError
deriving DecidableEq, Repr

deriving instance DecidableEq for Except

/-- The body after `parts = msg.split()`: `if len(parts) == 2` (the
two-element pattern), then `speed = int(parts[1])` — whose failure is the
unhandled `ValueError` — and only then the `if/elif` chain on the
direction token; any other token count reports "Invalid command format". -/
def processParts : List String → Except Fault Outcome
  | [direction, speedTok] =>
    match pyInt speedTok with
    | none => Except.error Fault.valueError
    | some speed =>
      if direction = "w" then Except.ok (Outcome.dispatched Directive.Forward speed)
      else if direction = "s" then Except.ok (Outcome.dispatched Directive.Backward speed)
      else if direction = "e" then Except.ok (Outcome.dispatched Directive.RotateRight speed)
      else if direction = "q" then Except.ok (Outcome.dispatched Directive.RotateLeft speed)
      else if direction = "k" then Except.ok (Outcome.dispatched Directive.Stop speed)
      else Except.ok Outcome.unknownCommand
  | _ => Except.ok Outcome.invalidFormat

/-- Processing of an already-decoded message: `msg.strip()`, `msg.split()`,
then the token-count check and dispatch chain. -/
def processMsg (m : String) : Except Fault Outcome :=
  processParts (pySplit (pyStrip m))

/-- One full loop iteration on the raw payload bytes: `data.decode()`
(unhandled `UnicodeDecodeError` on invalid UTF-8), then message
processing. -/
def processDatagram (p : List Nat) : Except Fault Outcome :=
  match pyDecode p with
  | none => Except.error Fault.decodeError
  | some cs => processMsg (String.mk cs)

/-- A sender address (host, port): printed in the log line but never
consulted by the parsing or dispatch logic. -/
abbrev Addr : Type := String × Nat

/-- A received datagram: payload bytes plus sender address. -/
abbrev Dgram : Type := List Nat × Addr

/-- The `while True` loop over a finite incoming sequence: each datagram's
outcome in order, stopping with the fault if an iteration raises (the
process dies and later datagrams are never processed). -/
def runServer : List Dgram → List Outcome × Option Fault
  | [] => ([], none)
  | d :: ds =>
    match processDatagram d.1 with
    | Except.error f => ([], some f)
    | Except.ok o => (o :: (runServer ds).1, (runServer ds).2)

/-! ### Helper lemmas -/

/-- Unfolding `processMsg`. -/
theorem processMsg_def (m : String) : processMsg m = processParts (pySplit (pyStrip m)) := rfl

/-- A token count other than 2 lands in the `else` branch. -/
theorem processParts_not_two (parts : List String) (h : parts.length ≠ 2) :
    processParts parts = Except.ok Outcome.invalidFormat := by
  match parts with
  | [] => rfl
  | [a] => rfl
  | [a, b] => exact absurd rfl h
  | a :: b :: c :: rest => rfl

/-- With exactly two tokens and a failing integer parse, the iteration
raises `ValueError` before any direction comparison. -/
theorem processMsg_two_badint (m d t : String)
    (hsplit : pySplit (pyStrip m) = [d, t]) (hparse : pyInt t = none) :
    processMsg m = Except.error Fault.valueError := by
  rw [processMsg_def, hsplit]
  simp [processParts, hparse]

/-- With exactly two tokens and a successful integer parse, the iteration
reduces to the direction `if/elif` chain. -/
theorem processMsg_two (m d t : String) (n : Int)
    (hsplit : pySplit (pyStrip m) = [d, t]) (hparse : pyInt t = some n) :
    processMsg m =
      Except.ok
        (if d = "w" then Outcome.dispatched Directive.Forward n
         else if d = "s" then Outcome.dispatched Directive.Backward n
         else if d = "e" then Outcome.dispatched Directive.RotateRight n
         else if d = "q" then Outcome.dispatched Directive.RotateLeft n
         else if d = "k" then Outcome.dispatched Directive.Stop n
         else Outcome.unknownCommand) := by
  rw [processMsg_def, hsplit]
  simp only [processParts, hparse]
  split_ifs <;> rfl

/-- A decoding failure raises `UnicodeDecodeError` before anything else. -/
theorem processDatagram_nodecode (p : List Nat) (h : pyDecode p = none) :
    processDatagram p = Except.error Fault.decodeError := by
  unfold processDatagram
  rw [h]

/-- A wrong token count is reported as invalid format. -/
theorem processMsg_not_two (m : String) (h : (pySplit (pyStrip m)).length ≠ 2) :
    processMsg m = Except.ok Outcome.invalidFormat := by
  rw [processMsg_def, processParts_not_two _ h]

/-- A fault-free run records one outcome per datagram. -/
theorem runServer_length (h : List Dgram) (hf : (runServer h).2 = none) :
    (runServer h).1.length = h.length := by
  induction h with
  | nil => rfl
  | cons d0 ds ih =>
    cases hpd0 : processDatagram d0.1 with
    | error f0 => simp [runServer, hpd0] at hf
    | ok o0 =>
      have hf' : (runServer ds).2 = none := by simpa [runServer, hpd0] using hf
      simp [runServer, hpd0, ih hf']

/-- Appending a datagram whose processing succeeds to a fault-free run
appends exactly its outcome. -/
theorem runServer_append_ok (h : List Dgram) (d : Dgram) (o : Outcome)
    (hf : (runServer h).2 = none) (hpd : processDatagram d.1 = Except.ok o) :
    runServer (h ++ [d]) = ((runServer h).1 ++ [o], none) := by
  induction h with
  | nil => simp [runServer, hpd]
  | cons d0 ds ih =>
    cases hpd0 : processDatagram d0.1 with
    | error f0 => simp [runServer, hpd0] at hf
    | ok o0 =>
      have hf' : (runServer ds).2 = none := by simpa [runServer, hpd0] using hf
      simp [runServer, hpd0, ih hf']

/-- Appending a datagram whose processing raises to a fault-free run leaves
the recorded outcomes unchanged and ends the run with that fault. -/
theorem runServer_append_error (h : List Dgram) (d : Dgram) (f : Fault)
    (hf : (runServer h).2 = none) (hpd : processDatagram d.1 = Except.error f) :
    runServer (h ++ [d]) = ((runServer h).1, some f) := by
  induction h with
  | nil => simp [runServer, hpd]
  | cons d0 ds ih =>
    cases hpd0 : processDatagram d0.1 with
    | error f0 => simp [runServer, hpd0] at hf
    | ok o0 =>
      have hf' : (runServer ds).2 = none := by simpa [runServer, hpd0] using hf
      simp [runServer, hpd0, ih hf']

/-- Membership survives `dropWhile`. -/
theorem mem_of_mem_dropWhile {l : List Char} {c : Char}
    (h : c ∈ l.dropWhile pyIsSpace) : c ∈ l := by
  induction l with
  | nil => exact absurd h (by simp)
  | cons a l ih =>
    rw [List.dropWhile_cons] at h
    by_cases hpa : pyIsSpace a = true
    · rw [if_pos hpa] at h
      exact List.mem_cons_of_mem a (ih h)
    · rw [if_neg hpa] at h
      exact h

/-- Splitting an all-whitespace character list yields no tokens. -/
theorem pySplitAux_space (l : List Char) (h : ∀ c ∈ l, pyIsSpace c = true) :
    pySplitAux l [] = [] := by
  induction l with
  | nil => rfl
  | cons c rest ih =>
    have hc : pyIsSpace c = true := h c (List.mem_cons_self c rest)
    have hstep : pySplitAux (c :: rest) [] =
        if pyIsSpace c then pySplitAux rest [] else pySplitAux rest [c] := rfl
    rw [hstep, if_pos hc]
    exact ih (fun x hx => h x (List.mem_cons_of_mem c hx))


/-! ### Claims -/

/-- C1: for every datagram whose decoded, trimmed text splits on whitespace
into exactly two tokens, where the first token is one of w/s/e/q/k and the
second parses as a base-10 integer n, the dispatcher reports exactly the
directive mapped from that token (w→Forward, s→Backward, e→RotateRight,
q→RotateLeft, k→Stop) with speed n, unchanged. -/
theorem dispatch_maps_token_to_directive (m d t : String) (n : Int)
    (hsplit : pySplit (pyStrip m) = [d, t]) (hparse : pyInt t = some n) :
    (d = "w" → processMsg m = Except.ok (Outcome.dispatched Directive.Forward n)) ∧
    (d = "s" → processMsg m = Except.ok (Outcome.dispatched Directive.Backward n)) ∧
    (d = "e" → processMsg m = Except.ok (Outcome.dispatched Directive.RotateRight n)) ∧
    (d = "q" → processMsg m = Except.ok (Outcome.dispatched Directive.RotateLeft n)) ∧
    (d = "k" → processMsg m = Except.ok (Outcome.dispatched Directive.Stop n)) := by
  rw [processMsg_two m d t n hsplit hparse]
  refine ⟨?_, ?_, ?_, ?_, ?_⟩ <;> rintro rfl
  · rw [if_pos rfl]
  · rw [if_neg (by decide), if_pos rfl]
  · rw [if_neg (by decide), if_neg (by decide), if_pos rfl]
  · rw [if_neg (by decide), if_neg (by decide), if_neg (by decide), if_pos rfl]
  · rw [if_neg (by decide), if_neg (by decide), if_neg (by decide), if_neg (by decide),
      if_pos rfl]

/-- Witness for C1 at the spec's first scenario, input "w 150". -/
theorem dispatch_maps_token_to_directive_witness :
    pySplit (pyStrip "w 150") = ["w", "150"] ∧ pyInt "150" = some 150 ∧
    processMsg "w 150" = Except.ok (Outcome.dispatched Directive.Forward 150) :=
  ⟨by decide, by decide,
    (dispatch_maps_token_to_directive "w 150" "w" "150" 150 (by decide) (by decide)).1 rfl⟩

/-- C2 counterexample: on input "x abc" the first token is outside
{w,s,e,q,k} and yet no "unknown command" outcome is reported — the
integer parse of the second token runs first and its failure crashes the
process, so the claim's "regardless of whether the second token is
numeric" is false. -/
theorem unknown_direction_nonnumeric_crashes :
    pySplit (pyStrip "x abc") = ["x", "abc"] ∧
    ("x" : String) ∉ (["w", "s", "e", "q", "k"] : List String) ∧
    processMsg "x abc" = Except.error Fault.valueError ∧
    processMsg "x abc" ≠ Except.ok Outcome.unknownCommand := by decide

/-- C2 (amended): for every datagram whose decoded text splits into exactly
2 tokens with the first token not in {w,s,e,q,k} and whose second token
parses as a base-10 integer, no directive is dispatched and an "unknown
command" outcome is reported and the process continues. -/
theorem unknown_direction_numeric_reports_unknown (m d t : String) (n : Int)
    (hsplit : pySplit (pyStrip m) = [d, t]) (hparse : pyInt t = some n)
    (hd : d ∉ (["w", "s", "e", "q", "k"] : List String)) :
    processMsg m = Except.ok Outcome.unknownCommand := by
  have hw : d ≠ "w" := by intro h; apply hd; rw [h]; decide
  have hs : d ≠ "s" := by intro h; apply hd; rw [h]; decide
  have he : d ≠ "e" := by intro h; apply hd; rw [h]; decide
  have hq : d ≠ "q" := by intro h; apply hd; rw [h]; decide
  have hk : d ≠ "k" := by intro h; apply hd; rw [h]; decide
  rw [processMsg_two m d t n hsplit hparse, if_neg hw, if_neg hs, if_neg he, if_neg hq,
    if_neg hk]

/-- Witness for the amended C2 at input "y 3". -/
theorem unknown_direction_numeric_reports_unknown_witness :
    pySplit (pyStrip "y 3") = ["y", "3"] ∧ pyInt "3" = some 3 ∧
    ("y" : String) ∉ (["w", "s", "e", "q", "k"] : List String) ∧
    processMsg "y 3" = Except.ok Outcome.unknownCommand :=
  ⟨by decide, by decide, by decide,
    unknown_direction_numeric_reports_unknown "y 3" "y" "3" 3 (by decide) (by decide)
      (by decide)⟩

/-- C3: for every datagram whose decoded text splits into exactly 2 tokens
where the second token does not parse as a base-10 integer, processing
raises an unhandled error (ValueError) that terminates the process — no
directive is dispatched and no recovered outcome is reported. -/
theorem nonnumeric_speed_crashes (m d t : String)
    (hsplit : pySplit (pyStrip m) = [d, t]) (hparse : pyInt t = none) :
    processMsg m = Except.error Fault.valueError ∧
    ∀ o : Outcome, processMsg m ≠ Except.ok o := by
  have h := processMsg_two_badint m d t hsplit hparse
  exact ⟨h, fun o hc => by rw [h] at hc; exact Except.noConfusion hc⟩

/-- Witness for C3 at the spec's sixth scenario, input "w abc". -/
theorem nonnumeric_speed_crashes_witness :
    pySplit (pyStrip "w abc") = ["w", "abc"] ∧ pyInt "abc" = none ∧
    processMsg "w abc" = Except.error Fault.valueError :=
  ⟨by decide, by decide,
    (nonnumeric_speed_crashes "w abc" "w" "abc" (by decide) (by decide)).1⟩

/-- C4: for every datagram whose decoded, trimmed text splits into a token
count other than 2, no directive is dispatched, an "invalid command
format" outcome is reported, and the loop continues without raising. -/
theorem wrong_token_count_invalid_format (m : String)
    (h : (pySplit (pyStrip m)).length ≠ 2) :
    processMsg m = Except.ok Outcome.invalidFormat :=
  processMsg_not_two m h

/-- Witness for C4 at the spec's fifth scenario, input "w". -/
theorem wrong_token_count_invalid_format_witness :
    (pySplit (pyStrip "w")).length ≠ 2 ∧
    processMsg "w" = Except.ok Outcome.invalidFormat :=
  ⟨by decide, wrong_token_count_invalid_format "w" (by decide)⟩

/-- C5: the iteration's observable step order — decode happens before
everything (a decoding failure crashes regardless of content), the token
count is validated before the integer parse (a wrong count is reported as
invalid format even when the tokens are non-numeric), and with exactly
two tokens the integer parse of the second token happens before the
direction token is compared (a parse failure crashes even when the
direction token is unrecognised). -/
theorem iteration_step_order :
    (∀ p : List Nat, pyDecode p = none → processDatagram p = Except.error Fault.decodeError) ∧
    (∀ m : String, (pySplit (pyStrip m)).length ≠ 2 →
      processMsg m = Except.ok Outcome.invalidFormat) ∧
    (∀ m d t : String, pySplit (pyStrip m) = [d, t] → pyInt t = none →
      processMsg m = Except.error Fault.valueError) :=
  ⟨fun p hp => processDatagram_nodecode p hp,
   fun m h => processMsg_not_two m h,
   fun m d t hsplit hparse => processMsg_two_badint m d t hsplit hparse⟩

/-- Witness for C5: a lone continuation byte crashes the decode step; three
non-numeric tokens are still reported as invalid format (the parse never
runs); "k zz" crashes on the parse even though "k" is a valid direction,
and by the C5 statement an unrecognised direction with a bad number also
crashes rather than reporting unknown command. -/
theorem iteration_step_order_witness :
    processDatagram [0xC0] = Except.error Fault.decodeError ∧
    processMsg "a b c" = Except.ok Outcome.invalidFormat ∧
    processMsg "k zz" = Except.error Fault.valueError :=
  ⟨iteration_step_order.1 [0xC0] (by decide),
   iteration_step_order.2.1 "a b c" (by decide),
   iteration_step_order.2.2 "k zz" "k" "zz" (by decide) (by decide)⟩

/-- C6: for every datagram whose payload is not a valid UTF-8 byte
sequence, the decode step raises an unhandled error that terminates the
process; no outcome is reported and no directive is dispatched. -/
theorem invalid_utf8_crashes (p : List Nat) (h : pyDecode p = none) :
    processDatagram p = Except.error Fault.decodeError ∧
    ∀ o : Outcome, processDatagram p ≠ Except.ok o := by
  have hp := processDatagram_nodecode p h
  exact ⟨hp, fun o hc => by rw [hp] at hc; exact Except.noConfusion hc⟩

/-- Witness for C6 at the payload [0xFF], which is invalid UTF-8. -/
theorem invalid_utf8_crashes_witness :
    pyDecode [0xFF] = none ∧
    processDatagram [0xFF] = Except.error Fault.decodeError :=
  ⟨by decide, (invalid_utf8_crashes [0xFF] (by decide)).1⟩

/-- C7: per-datagram processing is a pure function of the payload bytes.
For any two fault-free histories and any two sender addresses, appending a
datagram with the same payload produces the same additional outcome (or
the same fault) in both runs. -/
theorem per_datagram_purity (h1 h2 : List Dgram) (p : List Nat) (a1 a2 : Addr)
    (hf1 : (runServer h1).2 = none) (hf2 : (runServer h2).2 = none) :
    (runServer (h1 ++ [(p, a1)])).1.drop h1.length
      = (runServer (h2 ++ [(p, a2)])).1.drop h2.length ∧
    (runServer (h1 ++ [(p, a1)])).2 = (runServer (h2 ++ [(p, a2)])).2 := by
  cases hpd : processDatagram p with
  | error f =>
    rw [runServer_append_error h1 (p, a1) f hf1 hpd,
      runServer_append_error h2 (p, a2) f hf2 hpd]
    refine ⟨?_, rfl⟩
    show ((runServer h1).1).drop h1.length = ((runServer h2).1).drop h2.length
    rw [← runServer_length h1 hf1, ← runServer_length h2 hf2, List.drop_length,
      List.drop_length]
  | ok o =>
    rw [runServer_append_ok h1 (p, a1) o hf1 hpd, runServer_append_ok h2 (p, a2) o hf2 hpd]
    refine ⟨?_, rfl⟩
    show ((runServer h1).1 ++ [o]).drop h1.length = ((runServer h2).1 ++ [o]).drop h2.length
    rw [← runServer_length h1 hf1, ← runServer_length h2 hf2, List.drop_left, List.drop_left]

/-- Witness for C7: the payload "w 1" yields the same outcome whether it is
the first datagram (from sender A) or arrives after a "k 0" datagram from
a different sender. -/
theorem per_datagram_purity_witness :
    (runServer ([] : List Dgram)).2 = none ∧
    (runServer [(([107, 32, 48] : List Nat), ("10.0.0.1", 9))]).2 = none ∧
    ((runServer (([] : List Dgram) ++ [(([119, 32, 49] : List Nat), ("A", 1))])).1.drop 0
       = (runServer ([(([107, 32, 48] : List Nat), ("10.0.0.1", 9))]
            ++ [(([119, 32, 49] : List Nat), ("B", 2))])).1.drop 1 ∧
     (runServer (([] : List Dgram) ++ [(([119, 32, 49] : List Nat), ("A", 1))])).2
       = (runServer ([(([107, 32, 48] : List Nat), ("10.0.0.1", 9))]
            ++ [(([119, 32, 49] : List Nat), ("B", 2))])).2) :=
  ⟨by decide, by decide,
   per_datagram_purity [] [(([107, 32, 48] : List Nat), ("10.0.0.1", 9))]
     [119, 32, 49] ("A", 1) ("B", 2) (by decide) (by decide)⟩

/-- C8: the speed value is not range-checked — any signed integer token,
negative values and zero included, is accepted and dispatched unchanged
with the mapped directive. -/
theorem speed_not_range_checked (m d t : String) (n : Int)
    (hsplit : pySplit (pyStrip m) = [d, t])
    (hd : d ∈ (["w", "s", "e", "q", "k"] : List String))
    (hparse : pyInt t = some n) :
    ∃ dir : Directive, processMsg m = Except.ok (Outcome.dispatched dir n) := by
  rw [processMsg_two m d t n hsplit hparse]
  simp only [List.mem_cons, List.not_mem_nil, or_false] at hd
  rcases hd with rfl | rfl | rfl | rfl | rfl
  · exact ⟨Directive.Forward, by rw [if_pos rfl]⟩
  · exact ⟨Directive.Backward, by rw [if_neg (by decide), if_pos rfl]⟩
  · exact ⟨Directive.RotateRight, by rw [if_neg (by decide), if_neg (by decide), if_pos rfl]⟩
  · exact ⟨Directive.RotateLeft,
      by rw [if_neg (by decide), if_neg (by decide), if_neg (by decide), if_pos rfl]⟩
  · exact ⟨Directive.Stop,
      by rw [if_neg (by decide), if_neg (by decide), if_neg (by decide), if_neg (by decide),
        if_pos rfl]⟩

/-- Witness for C8 at the negative-speed input "w -5". -/
theorem speed_not_range_checked_witness :
    pySplit (pyStrip "w -5") = ["w", "-5"] ∧
    ("w" : String) ∈ (["w", "s", "e", "q", "k"] : List String) ∧
    pyInt "-5" = some (-5) ∧
    (∃ dir : Directive, processMsg "w -5" = Except.ok (Outcome.dispatched dir (-5))) :=
  ⟨by decide, by decide, by decide,
    speed_not_range_checked "w -5" "w" "-5" (-5) (by decide) (by decide) (by decide)⟩

/-- C9: an empty datagram, or one whose decoded text is entirely
whitespace, yields zero tokens and is reported as invalid format with no
directive dispatched and no crash. -/
theorem whitespace_only_invalid_format (p : List Nat) (cs : List Char)
    (hdec : pyDecode p = some cs) (hsp : ∀ c ∈ cs, pyIsSpace c = true) :
    processDatagram p = Except.ok Outcome.invalidFormat := by
  unfold processDatagram
  rw [hdec]
  show processMsg (String.mk cs) = Except.ok Outcome.invalidFormat
  rw [processMsg_def]
  have hall : ∀ c ∈ (pyStrip (String.mk cs)).data, pyIsSpace c = true := by
    intro c hc
    have hc' : c ∈ ((cs.dropWhile pyIsSpace).reverse.dropWhile pyIsSpace).reverse := hc
    rw [List.mem_reverse] at hc'
    have hc2 := mem_of_mem_dropWhile hc'
    rw [List.mem_reverse] at hc2
    exact hsp c (mem_of_mem_dropWhile hc2)
  show processParts (pySplitAux (pyStrip (String.mk cs)).data []) = _
  rw [pySplitAux_space _ hall]
  rfl

/-- Witness for C9 at the empty payload and at the all-whitespace payload
" \t". -/
theorem whitespace_only_invalid_format_witness :
    pyDecode ([] : List Nat) = some [] ∧
    processDatagram [] = Except.ok Outcome.invalidFormat ∧
    pyDecode [32, 9] = some [' ', '\t'] ∧
    processDatagram [32, 9] = Except.ok Outcome.invalidFormat :=
  ⟨by decide, whitespace_only_invalid_format [] [] (by decide) (by decide),
   by decide, whitespace_only_invalid_format [32, 9] [' ', '\t'] (by decide) (by decide)⟩

/-- C10: direction matching is exact and case-sensitive — with two tokens
and a numeric speed, any first token that differs from the five lowercase
letters in any way is reported as unknown command with no dispatch. -/
theorem direction_match_case_sensitive (m d t : String) (n : Int)
    (hsplit : pySplit (pyStrip m) = [d, t]) (hparse : pyInt t = some n)
    (hw : d ≠ "w") (hs : d ≠ "s") (he : d ≠ "e") (hq : d ≠ "q") (hk : d ≠ "k") :
    processMsg m = Except.ok Outcome.unknownCommand := by
  rw [processMsg_two m d t n hsplit hparse, if_neg hw, if_neg hs, if_neg he, if_neg hq,
    if_neg hk]

/-- Witness for C10 at the uppercase input "W 10". -/
theorem direction_match_case_sensitive_witness :
    pySplit (pyStrip "W 10") = ["W", "10"] ∧ pyInt "10" = some 10 ∧
    ("W" : String) ≠ "w" ∧
    processMsg "W 10" = Except.ok Outcome.unknownCommand :=
  ⟨by decide, by decide, by decide,
    direction_match_case_sensitive "W 10" "W" "10" 10 (by decide) (by decide) (by decide)
      (by decide) (by decide) (by decide) (by decide)⟩
